import Mathlib

/-!
Shallow embedding of `src/ldm/invoke/generator/diffusers_pipeline.py`
(`StableDiffusionGeneratorPipeline`), the InvokeAI diffusers generation
pipeline.  Tensors are modelled as shape/device/dtype metadata plus flat
(row-major) rational data.  The external collaborators (tokenizer, text
encoder, UNet, scheduler, VAE decoder, feature extractor, safety checker,
and the entropy sources behind `torch.randn` and `secrets.token_urlsafe`)
are opaque function fields of the `Pipeline` structure; the definitions
below translate only the orchestration code of the repository.
-/

namespace Diffusion

/-- Token batches produced by the tokenizer collaborator (opaque payload). -/
abbrev TokenBatch := List Nat

/-- A decoded pixel image (flat pixel data). -/
abbrev Image := List ℚ

/-- Features returned by the feature-extractor collaborator (opaque payload). -/
abbrev Features := List ℚ

/-- A prompt: either a single string or a batch of strings,
modelling the `Union[str, List[str]]` parameter type. -/
abbrev Prompt := Sum String (List String)

/-- A torch tensor: shape, device and dtype metadata plus flat row-major data. -/
structure Tensor where
  shape : List Nat
  device : Nat
  dtype : Nat
  data : List ℚ
  deriving DecidableEq

/-- Elementwise tensor-times-scalar (`tensor * c`, as in `latents *= sigma`). -/
def Tensor.mulScalar (t : Tensor) (c : ℚ) : Tensor :=
  { t with data := t.data.map (fun x => x * c) }

/-- Elementwise scalar-times-tensor (`c * tensor`). -/
def Tensor.scalarMul (t : Tensor) (c : ℚ) : Tensor :=
  { t with data := t.data.map (fun x => c * x) }

/-- Elementwise tensor addition. -/
def Tensor.add (a b : Tensor) : Tensor :=
  { a with data := List.zipWith (fun x y => x + y) a.data b.data }

/-- Elementwise tensor subtraction. -/
def Tensor.sub (a b : Tensor) : Tensor :=
  { a with data := List.zipWith (fun x y => x - y) a.data b.data }

/-- `torch.cat([a, b])`: concatenation along the batch (first) axis. -/
def Tensor.cat (a b : Tensor) : Tensor :=
  { a with
    shape := match a.shape, b.shape with
      | a0 :: arest, b0 :: _ => (a0 + b0) :: arest
      | s, _ => s,
    data := a.data ++ b.data }

/-- `tensor.chunk(2)`: split along the batch axis into two halves.  The
pipeline only chunks a batch it has just doubled with `torch.cat`, so the
even split of the flat data is exact. -/
def Tensor.chunk2 (t : Tensor) : Tensor × Tensor :=
  let n := t.data.length / 2
  let halfShape := match t.shape with
    | b0 :: rest => (b0 / 2) :: rest
    | [] => []
  (⟨halfShape, t.device, t.dtype, t.data.take n⟩,
   ⟨halfShape, t.device, t.dtype, t.data.drop n⟩)

/-- `tensor.to(device)`: move a tensor to a device (metadata only here). -/
def Tensor.toDevice (t : Tensor) (d : Nat) : Tensor :=
  { t with device := d }

/-- `x.clamp(lo, hi)` on one element. -/
def clampQ (lo hi x : ℚ) : ℚ := max lo (min hi x)

/-- Output of `scheduler.step`: the next latent sample and, for schedulers
that expose it, a predicted fully-denoised latent
(`pred_original_sample`). -/
structure SchedulerOutput where
  prev_sample : Tensor
  pred_original_sample : Option Tensor
  deriving DecidableEq

/-- The scheduler collaborator.  `timesteps` is the currently-set timestep
schedule; `schedule` is its (opaque) schedule computation, so that
`set_timesteps n` installs `schedule n`.  `scale_model_input` and `step`
are its opaque per-step numerical transforms. -/
structure Scheduler where
  init_noise_sigma : ℚ
  num_train_timesteps : Int
  timesteps : List Int
  schedule : Nat → List Int
  scale_model_input : Tensor → Int → Tensor
  step : Tensor → Int → Tensor → SchedulerOutput

/-- `scheduler.set_timesteps(n)` installs the schedule for `n` steps. -/
def Scheduler.set_timesteps (s : Scheduler) (n : Nat) : Scheduler :=
  { s with timesteps := s.schedule n }

/-- The denoising-network collaborator: channel count, device and dtype
descriptors plus its opaque forward pass
`(latent batch, timestep, encoder_hidden_states) -> noise prediction`. -/
structure UNet where
  in_channels : Nat
  device : Nat
  dtype : Nat
  run : Tensor → Int → Tensor → Tensor

/-- The pipeline: each collaborator referenced by
`StableDiffusionGeneratorPipeline` becomes an (opaque) field.
`token_urlsafe` models `secrets.token_urlsafe` (stdlib entropy);
`noise_source` models the data drawn by `torch.randn` for a given shape and
generator seed. -/
structure Pipeline where
  unet : UNet
  scheduler : Scheduler
  tokenizerFn : Prompt → TokenBatch
  text_encoder : TokenBatch → Tensor
  vae_decode : Tensor → List Image
  feature_extractor : Option (List Image → Features)
  safety_checker : Option (Image → Features → Image × Bool)
  token_urlsafe : Nat → String
  noise_source : List Nat → Nat → List ℚ

/-- `ID_LENGTH = 8`, the class constant used for generated run ids. -/
def ID_LENGTH : Nat := 8

/-- The `PipelineIntermediateState` dataclass. -/
structure PipelineIntermediateState where
  run_id : String
  step : Int
  timestep : Int
  latents : Tensor
  predicted_original : Option Tensor
  deriving DecidableEq

/-- The `StableDiffusionPipelineOutput` record: decoded images plus the
per-image NSFW flag list. -/
structure StableDiffusionPipelineOutput where
  images : List Image
  nsfw_content_detected : List Bool
  deriving DecidableEq

/-- One element of the sequence the generation loop yields: either a
`PipelineIntermediateState` or the final `StableDiffusionPipelineOutput`. -/
inductive PipelineState where
  | intermediate (st : PipelineIntermediateState)
  | output (o : StableDiffusionPipelineOutput)
  deriving DecidableEq

/-- `isinstance(result, PipelineIntermediateState)`. -/
def isIntermediateState : PipelineState → Bool
  | .intermediate _ => true
  | .output _ => false

/-- The step index carried by a state (`none` for the final output). -/
def stateStepIdx : PipelineState → Option Int
  | .intermediate st => some st.step
  | .output _ => none

/-- The run id carried by a state (`none` for the final output, which
carries no run id field). -/
def stateRunId : PipelineState → Option String
  | .intermediate st => some st.run_id
  | .output _ => none

/-- The latents tensor carried by a state (`none` for the final output). -/
def stateLatents : PipelineState → Option Tensor
  | .intermediate st => some st.latents
  | .output _ => none

/-- Errors raised by the pipeline: the `ValueError`s of `generate` and
`prepare_latents`, and the `AssertionError` of the convenience entry
points on an empty sequence. -/
inductive PipeError where
  | invalidSize (height width : Nat)
  | latentsShape (got expected : List Nat)
  | latentsDevice (got expected : Nat)
  | emptyGenerator
  deriving DecidableEq

/-- Instrumentation of collaborator invocations, used to state that
validation errors precede any collaborator call. -/
inductive CollabCall where
  | tokenizer
  | text_encoder
  | scheduler_set_timesteps
  | scheduler_scale_input
  | unet
  | scheduler_step
  | vae_decode
  | feature_extractor
  | safety_checker
  deriving DecidableEq

instance exceptDecEq {ε α : Type} [DecidableEq ε] [DecidableEq α] :
    DecidableEq (Except ε α) := fun x y =>
  match x, y with
  | .ok a, .ok b =>
      if h : a = b then isTrue (by rw [h]) else isFalse (by simp [h])
  | .error a, .error b =>
      if h : a = b then isTrue (by rw [h]) else isFalse (by simp [h])
  | .ok _, .error _ => isFalse (by simp)
  | .error _, .ok _ => isFalse (by simp)

/-- `self._tokenize(prompt)`: delegate to the tokenizer collaborator (its
padding/truncation configuration is internal to the opaque field). -/
def _tokenize (p : Pipeline) (prompt : Prompt) : TokenBatch :=
  p.tokenizerFn prompt

/-- Python falsiness of a prompt value (`None` is handled separately). -/
def promptIsFalsy : Prompt → Bool
  | .inl s => s.isEmpty
  | .inr l => l.isEmpty

/-- The expression `opposing_prompt or [""] * batch_size`: a missing or
falsy opposing prompt defaults to one blank caption per batch element. -/
def orDefault (opposing : Option Prompt) (batch_size : Nat) : Prompt :=
  match opposing with
  | none => .inr (List.replicate batch_size "")
  | some op => if promptIsFalsy op then .inr (List.replicate batch_size "") else op

/-- `get_text_embeddings`: encode the prompt; with guidance also encode the
opposing prompt and concatenate `[uncond_embeddings; text_embeddings]`
along the batch axis, in that order. -/
def get_text_embeddings (p : Pipeline) (prompt : Prompt) (opposing_prompt : Option Prompt)
    (do_classifier_free_guidance : Bool) (batch_size : Nat) : Tensor :=
  let text_input := _tokenize p prompt
  let text_embeddings := p.text_encoder text_input
  if do_classifier_free_guidance then
    let text_anti_input := _tokenize p (orDefault opposing_prompt batch_size)
    let uncond_embeddings := p.text_encoder text_anti_input
    Tensor.cat uncond_embeddings text_embeddings
  else
    text_embeddings

/-- Collaborator calls made by `get_text_embeddings`, in order. -/
def get_text_embeddings_calls (do_classifier_free_guidance : Bool) : List CollabCall :=
  [CollabCall.tokenizer, CollabCall.text_encoder]
    ++ (if do_classifier_free_guidance then [CollabCall.tokenizer, CollabCall.text_encoder] else [])

/-- `prepare_latents`: draw `torch.randn` noise of the expected shape on
the UNet's device unless the caller supplied latents; validate the shape of
supplied latents and the device of the result; scale by
`scheduler.init_noise_sigma`. -/
def prepare_latents (p : Pipeline) (latents : Option Tensor) (batch_size height width : Nat)
    (generator : Nat) (dtype : Nat) : Except PipeError Tensor :=
  let latents_shape := [batch_size, p.unet.in_channels, height / 8, width / 8]
  let checked : Except PipeError Tensor :=
    match latents with
    | none =>
        Except.ok ⟨latents_shape, p.unet.device, dtype, p.noise_source latents_shape generator⟩
    | some lat =>
        if lat.shape ≠ latents_shape then
          Except.error (PipeError.latentsShape lat.shape latents_shape)
        else
          Except.ok lat
  match checked with
  | Except.error e => Except.error e
  | Except.ok lat =>
      if lat.device ≠ p.unet.device then
        Except.error (PipeError.latentsDevice lat.device p.unet.device)
      else
        Except.ok (lat.mulScalar p.scheduler.init_noise_sigma)

/-- The noise prediction `step` passes to `scheduler.step` (lines 255-267
of the source): duplicate the latent batch under guidance, apply the
scheduler's input scaling, run the UNet, and under guidance recombine the
two halves as `noise_pred_uncond + guidance_scale * (noise_pred_text -
noise_pred_uncond)`. -/
def step_noise_pred (p : Pipeline) (t : Int) (latents : Tensor) (guidance_scale : ℚ)
    (text_embeddings : Tensor) : Tensor :=
  let latent_model_input := if 1 < guidance_scale then Tensor.cat latents latents else latents
  let latent_model_input := p.scheduler.scale_model_input latent_model_input t
  let noise_pred := p.unet.run latent_model_input t text_embeddings
  if 1 < guidance_scale then
    let chunks := noise_pred.chunk2
    let noise_pred_uncond := chunks.1
    let noise_pred_text := chunks.2
    noise_pred_uncond.add ((noise_pred_text.sub noise_pred_uncond).scalarMul guidance_scale)
  else
    noise_pred

/-- `step`: delegate the combined noise prediction, the timestep and the
current latents to `scheduler.step` (extra per-step kwargs are passed
through opaquely and are not modelled). -/
def step (p : Pipeline) (t : Int) (latents : Tensor) (guidance_scale : ℚ)
    (text_embeddings : Tensor) : SchedulerOutput :=
  p.scheduler.step (step_noise_pred p t latents guidance_scale text_embeddings) t latents

/-- `decode_to_image`: undo the encoder's 0.18215 scaling, decode through
the VAE, rescale pixel values from [-1,1] to [0,1] and clamp (the
cpu/permute layout change is not observable in this model). -/
def decode_to_image (p : Pipeline) (latents : Tensor) : List Image :=
  let latents := latents.scalarMul (1 / (0.18215 : ℚ))
  let image := p.vae_decode latents
  image.map (fun img => img.map (fun x => clampQ 0 1 (x / 2 + (0.5 : ℚ))))

/-- `check_for_safety`: if either the feature extractor or the safety
checker is absent, return the output unchanged; otherwise extract features
and run the checker.  The safety-checker collaborator is modelled per the
spec's capability signature, image -> (possibly redacted image, flag),
applied across the batch. -/
def check_for_safety (p : Pipeline) (output : StableDiffusionPipelineOutput) :
    StableDiffusionPipelineOutput :=
  match p.feature_extractor, p.safety_checker with
  | some fe, some sc =>
      let images := output.images
      let features := fe images
      ⟨images.map (fun im => (sc im features).1), images.map (fun im => (sc im features).2)⟩
  | _, _ => output

/-- The run id used for the loop: the caller's, or a fresh
`secrets.token_urlsafe(ID_LENGTH)` token when the caller omitted it. -/
def runIdOf (p : Pipeline) (run_id : Option String) : String :=
  match run_id with
  | none => p.token_urlsafe ID_LENGTH
  | some r => r

/-- The `for i, t in enumerate(self.progress_bar(self.scheduler.timesteps))`
loop body: run `step`, replace the latents with its `prev_sample`, and
yield an intermediate state per step.  Returns the yielded states and the
final latents. -/
def denoiseLoop (p : Pipeline) (rid : String) (guidance_scale : ℚ) (text_embeddings : Tensor) :
    Nat → List Int → Tensor → List PipelineState × Tensor
  | _, [], latents => ([], latents)
  | i, t :: rest, latents =>
      let step_output := step p t latents guidance_scale text_embeddings
      let tail := denoiseLoop p rid guidance_scale text_embeddings (i + 1) rest step_output.prev_sample
      (PipelineState.intermediate
          ⟨rid, (i : Int), t, step_output.prev_sample, step_output.pred_original_sample⟩ :: tail.1,
       tail.2)

/-- `generate_from_embeddings`: resolve the run id, scale the incoming
latents by `init_noise_sigma`, yield the step `-1` initial state, run the
denoising loop over the scheduler's currently-set timesteps, then decode
and safety-check the final latents and yield the final output.  (The
`torch.cuda.empty_cache()` hint has no observable effect here.) -/
def generate_from_embeddings (p : Pipeline) (latents : Tensor) (text_embeddings : Tensor)
    (guidance_scale : ℚ) (run_id : Option String) : List PipelineState :=
  let rid := runIdOf p run_id
  let latents := latents.mulScalar p.scheduler.init_noise_sigma
  let r := denoiseLoop p rid guidance_scale text_embeddings 0 p.scheduler.timesteps latents
  PipelineState.intermediate ⟨rid, -1, p.scheduler.num_train_timesteps, latents, none⟩
    :: r.1
    ++ [PipelineState.output (check_for_safety p ⟨decode_to_image p r.2, []⟩)]

/-- Collaborator calls made by `generate_from_embeddings`, in order. -/
def generate_from_embeddings_calls (p : Pipeline) : List CollabCall :=
  (p.scheduler.timesteps.map
      (fun _ => [CollabCall.scheduler_scale_input, CollabCall.unet, CollabCall.scheduler_step])).flatten
    ++ [CollabCall.vae_decode]
    ++ (match p.feature_extractor, p.safety_checker with
        | some _, some _ => [CollabCall.feature_extractor, CollabCall.safety_checker]
        | _, _ => [])

/-- A pipeline whose scheduler has been given `set_timesteps n`. -/
def setTimesteps (p : Pipeline) (n : Nat) : Pipeline :=
  { p with scheduler := p.scheduler.set_timesteps n }

/-- `generate`: determine the batch size from the prompt type, validate the
height/width divisibility, compute the text embeddings, set the
scheduler's timesteps, prepare the latents, and delegate to
`generate_from_embeddings`.  Returns the produced state sequence (or the
raised error) together with the instrumented trace of collaborator calls
made before/during it. -/
def generate (p : Pipeline) (prompt : Prompt) (opposing_prompt : Option Prompt)
    (height width : Nat) (num_inference_steps : Nat) (guidance_scale : ℚ)
    (generator : Nat) (latents : Option Tensor) (run_id : Option String) :
    Except PipeError (List PipelineState) × List CollabCall :=
  let batch_size := match prompt with
    | Sum.inl _ => 1
    | Sum.inr ps => ps.length
  if height % 8 ≠ 0 ∨ width % 8 ≠ 0 then
    (Except.error (PipeError.invalidSize height width), [])
  else
    let do_classifier_free_guidance := decide (1 < guidance_scale)
    let text_embeddings :=
      (get_text_embeddings p prompt opposing_prompt do_classifier_free_guidance batch_size).toDevice
        p.unet.device
    let p := setTimesteps p num_inference_steps
    let preCalls := get_text_embeddings_calls do_classifier_free_guidance
      ++ [CollabCall.scheduler_set_timesteps]
    match prepare_latents p latents batch_size height width generator p.unet.dtype with
    | Except.error e => (Except.error e, preCalls)
    | Except.ok lat =>
        (Except.ok (generate_from_embeddings p lat text_embeddings guidance_scale run_id),
         preCalls ++ generate_from_embeddings_calls p)

/-- `__call__`: drain `generate`, invoking the callback on every produced
element; the first component is the list of callback invocations in order,
the second the returned value (the last element, or the `AssertionError`
on an empty sequence; a validation error propagates before any callback
fires). -/
def callEntry (p : Pipeline) (prompt : Prompt) (height width : Nat)
    (num_inference_steps : Nat) (guidance_scale : ℚ) (generator : Nat)
    (latents : Option Tensor) : List PipelineState × Except PipeError PipelineState :=
  match (generate p prompt none height width num_inference_steps guidance_scale
      generator latents none).1 with
  | Except.error e => ([], Except.error e)
  | Except.ok s =>
      (s, match s.getLast? with
          | none => Except.error PipeError.emptyGenerator
          | some last => Except.ok last)

/-- `image_from_embeddings`: set the scheduler's timesteps, drain
`generate_from_embeddings`, and invoke the callback only on elements that
are `PipelineIntermediateState`s.  The first component is the list of
callback invocations in order, the second the returned value (the last
element). -/
def image_from_embeddings (p : Pipeline) (latents : Tensor) (num_inference_steps : Nat)
    (text_embeddings : Tensor) (guidance_scale : ℚ) (run_id : Option String) :
    List PipelineState × Except PipeError PipelineState :=
  let p := setTimesteps p num_inference_steps
  let s := generate_from_embeddings p latents text_embeddings guidance_scale run_id
  (s.filter isIntermediateState,
   match s.getLast? with
   | none => Except.error PipeError.emptyGenerator
   | some last => Except.ok last)

/-- A heap of tensor objects, addressed by object identity; models the
aliasing visible to a caller whose tensor the pipeline mutates with the
in-place `latents *= sigma`. -/
abbrev Store := Nat → Tensor

/-- The in-place `latents *= c` on the object at address `ref`. -/
def scaleInPlace (s : Store) (ref : Nat) (c : ℚ) : Store :=
  fun k => if k = ref then (s k).mulScalar c else s k

/-- `prepare_latents` on a caller-supplied tensor object living in the
heap: the same validation as `prepare_latents`, with the final scaling
performed in place on the caller's object. -/
def prepare_latents_heap (p : Pipeline) (s : Store) (ref : Nat)
    (batch_size height width : Nat) : Except PipeError Store :=
  let latents_shape := [batch_size, p.unet.in_channels, height / 8, width / 8]
  if (s ref).shape ≠ latents_shape then
    Except.error (PipeError.latentsShape (s ref).shape latents_shape)
  else if (s ref).device ≠ p.unet.device then
    Except.error (PipeError.latentsDevice (s ref).device p.unet.device)
  else
    Except.ok (scaleInPlace s ref p.scheduler.init_noise_sigma)

/-- The caller-visible heap once a `generate` run has passed
`prepare_latents` (line 226) and `generate_from_embeddings` has performed
its own `latents *= sigma` (line 235). -/
def generate_heap_after_loop_start (p : Pipeline) (s : Store) (ref : Nat)
    (batch_size height width : Nat) : Except PipeError Store :=
  match prepare_latents_heap p s ref batch_size height width with
  | Except.error e => Except.error e
  | Except.ok s1 => Except.ok (scaleInPlace s1 ref p.scheduler.init_noise_sigma)

/-- A concrete scheduler for the example pipelines: `init_noise_sigma = 2`
(as for an LMS-style scheduler, where the constant is not 1), a decreasing
integer schedule, identity input scaling, and a simple concrete step rule. -/
def schedEx : Scheduler :=
  { init_noise_sigma := 2
  , num_train_timesteps := 1000
  , timesteps := []
  , schedule := fun n => (List.range n).map (fun i => (Int.ofNat (n - i)) * 10)
  , scale_model_input := fun t _ => t
  , step := fun noise _ lat => ⟨lat.sub noise, none⟩ }

/-- A concrete UNet whose forward pass returns the fixed prediction
`[1, 3]` over a doubled batch, so its two chunks are `[1]` and `[3]`. -/
def unetEx : UNet :=
  { in_channels := 1
  , device := 0
  , dtype := 0
  , run := fun _ _ _ => ⟨[2, 1, 1, 1], 0, 0, [1, 3]⟩ }

/-- A concrete pipeline (no safety capabilities configured). -/
def pEx : Pipeline :=
  { unet := unetEx
  , scheduler := schedEx
  , tokenizerFn := fun _ => [1, 2]
  , text_encoder := fun toks => ⟨[1, toks.length, 4], 0, 0, [1, 0]⟩
  , vae_decode := fun lat => [lat.data]
  , feature_extractor := none
  , safety_checker := none
  , token_urlsafe := fun _ => "fresh-token"
  , noise_source := fun shape _ => List.replicate (shape.foldl (fun a b => a * b) 1) 1 }

/-- `pEx` after `set_timesteps 1` (a one-step schedule). -/
def pExT : Pipeline := setTimesteps pEx 1

/-- `pEx` with both safety capabilities configured; the checker always
flags and redacts to a zero image. -/
def pSafe : Pipeline :=
  { pEx with
    feature_extractor := some (fun _ => [0])
  , safety_checker := some (fun im _ => (List.replicate im.length 0, true)) }

/-- A supplied latent of the shape `pEx` expects at 8x8, on device 0. -/
def latGood : Tensor := ⟨[1, 1, 1, 1], 0, 0, [1]⟩

/-- A supplied latent of the wrong shape. -/
def latWrongShape : Tensor := ⟨[2, 1, 1, 1], 0, 0, [1, 1]⟩

/-- A correctly-shaped supplied latent on the wrong device. -/
def latWrongDevice : Tensor := ⟨[1, 1, 1, 1], 1, 0, [1]⟩

/-- A concrete embedding tensor. -/
def embEx : Tensor := ⟨[1, 2, 4], 0, 0, [1, 0]⟩

/-- A concrete single-string prompt. -/
def promptEx : Prompt := Sum.inl "a cat"

/-- The sequence a successful concrete `generate` run produces. -/
def seqEx : List PipelineState :=
  match (generate pEx promptEx none 8 8 1 1 0 (some latGood) none).1 with
  | Except.ok s => s
  | Except.error _ => []

/-- A concrete heap holding the caller's tensor `latGood` at every
address (only address 0 is used). -/
def storeEx : Store := fun _ => latGood

/-- Unfolding of `generate_from_embeddings` into its three syntactic
pieces: the initial state, the loop states, and the final output. -/
theorem generate_from_embeddings_eq (p : Pipeline) (lat emb : Tensor) (gs : ℚ)
    (rid : Option String) :
    generate_from_embeddings p lat emb gs rid
      = PipelineState.intermediate
            ⟨runIdOf p rid, -1, p.scheduler.num_train_timesteps,
             lat.mulScalar p.scheduler.init_noise_sigma, none⟩
          :: (denoiseLoop p (runIdOf p rid) gs emb 0 p.scheduler.timesteps
                (lat.mulScalar p.scheduler.init_noise_sigma)).1
          ++ [PipelineState.output (check_for_safety p
                ⟨decode_to_image p
                   (denoiseLoop p (runIdOf p rid) gs emb 0 p.scheduler.timesteps
                     (lat.mulScalar p.scheduler.init_noise_sigma)).2, []⟩)] := rfl

/-- The denoising loop yields one intermediate state per timestep, with
step indices counting up from the starting index. -/
theorem denoiseLoop_map_stepIdx (p : Pipeline) (rid : String) (gs : ℚ) (emb : Tensor) :
    ∀ (ts : List Int) (i : Nat) (lat : Tensor),
      ((denoiseLoop p rid gs emb i ts lat).1).map stateStepIdx
        = (List.range' i ts.length).map (fun n => some (Int.ofNat n)) := by
  intro ts
  induction ts with
  | nil => intro i lat; simp [denoiseLoop]
  | cons t rest ih =>
      intro i lat
      simp [denoiseLoop, stateStepIdx, List.range'_succ, ih]

/-- The denoising loop yields as many states as there are timesteps. -/
theorem denoiseLoop_length (p : Pipeline) (rid : String) (gs : ℚ) (emb : Tensor) :
    ∀ (ts : List Int) (i : Nat) (lat : Tensor),
      ((denoiseLoop p rid gs emb i ts lat).1).length = ts.length := by
  intro ts
  induction ts with
  | nil => intro i lat; simp [denoiseLoop]
  | cons t rest ih =>
      intro i lat
      simp [denoiseLoop, ih]

/-- Every state the denoising loop yields carries the loop's run id. -/
theorem denoiseLoop_map_runId (p : Pipeline) (rid : String) (gs : ℚ) (emb : Tensor) :
    ∀ (ts : List Int) (i : Nat) (lat : Tensor),
      ((denoiseLoop p rid gs emb i ts lat).1).map stateRunId
        = List.replicate ts.length (some rid) := by
  intro ts
  induction ts with
  | nil => intro i lat; simp [denoiseLoop]
  | cons t rest ih =>
      intro i lat
      simp [denoiseLoop, stateRunId, List.replicate_succ, ih]

/-- Every state the denoising loop yields is an intermediate state. -/
theorem denoiseLoop_all_intermediate (p : Pipeline) (rid : String) (gs : ℚ) (emb : Tensor) :
    ∀ (ts : List Int) (i : Nat) (lat : Tensor),
      ∀ x ∈ (denoiseLoop p rid gs emb i ts lat).1, isIntermediateState x = true := by
  intro ts
  induction ts with
  | nil => intro i lat x hx; simp [denoiseLoop] at hx
  | cons t rest ih =>
      intro i lat x hx
      simp only [denoiseLoop, List.mem_cons] at hx
      rcases hx with h | h
      · subst h; rfl
      · exact ih (i + 1) _ x h

/-- Claim C3: with a timestep schedule of N >= 1 entries, the raw state
sequence of `generate_from_embeddings` has exactly N + 2 elements: first
one initial intermediate state with step index -1 carrying the scaled
initial latent, then N per-step intermediate states with step indices
0..N-1 in strictly increasing contiguous order, and last exactly one final
output. -/
theorem generate_from_embeddings_state_count (p : Pipeline) (lat emb : Tensor) (gs : ℚ)
    (rid : Option String) (N : Nat) (hN : 1 ≤ N) (hts : p.scheduler.timesteps.length = N) :
    (generate_from_embeddings p lat emb gs rid).length = N + 2
  ∧ (generate_from_embeddings p lat emb gs rid).map stateStepIdx
      = some (-1) :: ((List.range N).map (fun n => some (Int.ofNat n)) ++ [none])
  ∧ (generate_from_embeddings p lat emb gs rid).head?
      = some (PipelineState.intermediate
          ⟨runIdOf p rid, -1, p.scheduler.num_train_timesteps,
           lat.mulScalar p.scheduler.init_noise_sigma, none⟩) := by
  have hmap : (generate_from_embeddings p lat emb gs rid).map stateStepIdx
      = some (-1) :: ((List.range N).map (fun n => some (Int.ofNat n)) ++ [none]) := by
    rw [generate_from_embeddings_eq]
    simp [denoiseLoop_map_stepIdx, hts, List.range_eq_range', stateStepIdx]
  refine ⟨?_, hmap, ?_⟩
  · rw [generate_from_embeddings_eq]
    simp only [List.length_cons, List.length_append, denoiseLoop_length, hts,
      List.length_nil]
  · rw [generate_from_embeddings_eq]
    rfl

/-- Witness for C3 at a concrete one-step pipeline. -/
theorem generate_from_embeddings_state_count_witness :
    1 ≤ 1 ∧ pExT.scheduler.timesteps.length = 1
  ∧ (generate_from_embeddings pExT latGood embEx 1 (some "r")).length = 1 + 2 := by
  refine ⟨by decide, by decide, ?_⟩
  exact (generate_from_embeddings_state_count pExT latGood embEx 1 (some "r") 1
    (by decide) (by decide)).1

/-- Claim C4: the run identifier is identical across every intermediate
state of the produced sequence (the final output carries none), and when
the caller omits it, the id used is the freshly generated
`secrets.token_urlsafe(ID_LENGTH)` token with `ID_LENGTH = 8`, tagging
every state of the run.  The randomness and URL-safe alphabet of
`secrets.token_urlsafe` belong to the Python stdlib collaborator, modelled
by the opaque `token_urlsafe` field. -/
theorem run_id_stable_and_generated (p : Pipeline) (lat emb : Tensor) (gs : ℚ)
    (rid : Option String) :
    (generate_from_embeddings p lat emb gs rid).map stateRunId
      = some (runIdOf p rid)
          :: (List.replicate p.scheduler.timesteps.length (some (runIdOf p rid)) ++ [none])
  ∧ runIdOf p none = p.token_urlsafe ID_LENGTH
  ∧ ID_LENGTH = 8 := by
  refine ⟨?_, rfl, rfl⟩
  rw [generate_from_embeddings_eq]
  simp [denoiseLoop_map_runId, stateRunId]

/-- Filtering the raw sequence down to intermediate states drops exactly
its final element (the single output). -/
theorem filter_intermediate_dropLast (p : Pipeline) (lat emb : Tensor) (gs : ℚ)
    (rid : Option String) :
    (generate_from_embeddings p lat emb gs rid).filter isIntermediateState
      = (generate_from_embeddings p lat emb gs rid).dropLast := by
  rw [generate_from_embeddings_eq, List.dropLast_concat, List.filter_append]
  have hb := denoiseLoop_all_intermediate p (runIdOf p rid) gs emb
    p.scheduler.timesteps 0 (lat.mulScalar p.scheduler.init_noise_sigma)
  simp [List.filter_cons, isIntermediateState, List.filter_eq_self.mpr hb]

/-- Claim C2 counterexample: at a concrete one-step run,
`image_from_embeddings` emits 3 states but invokes the callback only
twice; the callback-invocation list is not the emitted sequence (the final
output element is skipped), refuting the claim that the callback fires
once per emitted element including the final output. -/
theorem image_from_embeddings_callback_misses_final :
    (image_from_embeddings pEx latGood 1 embEx 1 (some "r")).1.length = 2
  ∧ (generate_from_embeddings pExT latGood embEx 1 (some "r")).length = 3
  ∧ (image_from_embeddings pEx latGood 1 embEx 1 (some "r")).1
      ≠ generate_from_embeddings pExT latGood embEx 1 (some "r") := by
  have h1 : (image_from_embeddings pEx latGood 1 embEx 1 (some "r")).1.length = 2 := rfl
  have h2 : (generate_from_embeddings pExT latGood embEx 1 (some "r")).length = 3 := rfl
  refine ⟨h1, h2, fun h => ?_⟩
  have h3 := congrArg List.length h
  rw [h1, h2] at h3
  exact absurd h3 (by decide)

/-- Claim C2 as amended: with a callback supplied, `__call__` invokes the
callback once per element the state sequence emits, including the final
output; `image_from_embeddings` invokes it once per intermediate state
only — every emitted element except the final output. -/
theorem callback_trace_spec (p : Pipeline) (lat emb : Tensor) (gs : ℚ) (rid : Option String)
    (n : Nat) (q : Pipeline) (prompt : Prompt) (height width steps : Nat) (gq : ℚ)
    (generator : Nat) (lats : Option Tensor) (s : List PipelineState)
    (hs : (generate q prompt none height width steps gq generator lats none).1
            = Except.ok s) :
    (image_from_embeddings p lat n emb gs rid).1
      = (generate_from_embeddings (setTimesteps p n) lat emb gs rid).dropLast
  ∧ (callEntry q prompt height width steps gq generator lats).1 = s := by
  constructor
  · simp only [image_from_embeddings]
    exact filter_intermediate_dropLast (setTimesteps p n) lat emb gs rid
  · simp only [callEntry, hs]

/-- Witness for the amended C2 at a concrete one-step run. -/
theorem callback_trace_spec_witness :
    (generate pEx promptEx none 8 8 1 1 0 (some latGood) none).1 = Except.ok seqEx
  ∧ ((image_from_embeddings pEx latGood 1 embEx 1 (some "r")).1
      = (generate_from_embeddings (setTimesteps pEx 1) latGood embEx 1 (some "r")).dropLast
    ∧ (callEntry pEx promptEx 8 8 1 1 0 (some latGood)).1 = seqEx) := by
  refine ⟨rfl, ?_⟩
  exact callback_trace_spec pEx latGood embEx 1 (some "r") 1 pEx promptEx 8 8 1 1 0
    (some latGood) seqEx rfl

/-- Claim C5: when height or width is not divisible by 8, `generate`
raises the validation error with an empty collaborator-call trace — no
tokenizer, encoder, denoiser, scheduler or decoder invocation happens
first. -/
theorem generate_validates_size_first (p : Pipeline) (prompt : Prompt)
    (opposing_prompt : Option Prompt) (height width num_inference_steps : Nat)
    (guidance_scale : ℚ) (generator : Nat) (latents : Option Tensor) (run_id : Option String)
    (h : height % 8 ≠ 0 ∨ width % 8 ≠ 0) :
    generate p prompt opposing_prompt height width num_inference_steps guidance_scale
        generator latents run_id
      = (Except.error (PipeError.invalidSize height width), []) := by
  simp only [generate]
  rw [if_pos h]

/-- Witness for C5 at height 511 (and at width 513). -/
theorem generate_validates_size_first_witness :
    ((511 % 8 ≠ 0 ∨ 512 % 8 ≠ 0)
      ∧ generate pEx promptEx none 511 512 50 (15/2) 0 none none
          = (Except.error (PipeError.invalidSize 511 512), []))
  ∧ ((512 % 8 ≠ 0 ∨ 513 % 8 ≠ 0)
      ∧ generate pEx promptEx none 512 513 50 (15/2) 0 none none
          = (Except.error (PipeError.invalidSize 512 513), [])) :=
  ⟨⟨by decide, generate_validates_size_first pEx promptEx none 511 512 50 (15/2) 0 none none
      (by decide)⟩,
   ⟨by decide, generate_validates_size_first pEx promptEx none 512 513 50 (15/2) 0 none none
      (by decide)⟩⟩

/-- Claim C6: a caller-supplied latent tensor is rejected with the
shape-mismatch error when its shape differs from
(batch, unet.in_channels, height/8, width/8), rejected with the
device-mismatch error when it lives on a different device than the UNet,
and otherwise accepted with its shape unchanged. -/
theorem prepare_latents_validation (p : Pipeline) (lat : Tensor)
    (batch_size height width generator dtype : Nat) :
    (lat.shape ≠ [batch_size, p.unet.in_channels, height / 8, width / 8] →
        prepare_latents p (some lat) batch_size height width generator dtype
          = Except.error (PipeError.latentsShape lat.shape
              [batch_size, p.unet.in_channels, height / 8, width / 8]))
  ∧ (lat.shape = [batch_size, p.unet.in_channels, height / 8, width / 8] →
     lat.device ≠ p.unet.device →
        prepare_latents p (some lat) batch_size height width generator dtype
          = Except.error (PipeError.latentsDevice lat.device p.unet.device))
  ∧ (lat.shape = [batch_size, p.unet.in_channels, height / 8, width / 8] →
     lat.device = p.unet.device →
        prepare_latents p (some lat) batch_size height width generator dtype
          = Except.ok (lat.mulScalar p.scheduler.init_noise_sigma)
        ∧ (lat.mulScalar p.scheduler.init_noise_sigma).shape = lat.shape) := by
  refine ⟨fun hsh => ?_, fun hsh hdev => ?_, fun hsh hdev => ⟨?_, rfl⟩⟩
  · simp [prepare_latents, hsh]
  · simp [prepare_latents, hsh, hdev]
  · simp [prepare_latents, hsh, hdev]

/-- Witness for C6: wrong shape rejected, wrong device rejected, matching
latents accepted with shape unchanged, each at a concrete input. -/
theorem prepare_latents_validation_witness :
    prepare_latents pEx (some latWrongShape) 1 8 8 0 0
      = Except.error (PipeError.latentsShape [2, 1, 1, 1] [1, 1, 1, 1])
  ∧ prepare_latents pEx (some latWrongDevice) 1 8 8 0 0
      = Except.error (PipeError.latentsDevice 1 0)
  ∧ (prepare_latents pEx (some latGood) 1 8 8 0 0
      = Except.ok (latGood.mulScalar pEx.scheduler.init_noise_sigma)
    ∧ (latGood.mulScalar pEx.scheduler.init_noise_sigma).shape = latGood.shape) :=
  ⟨(prepare_latents_validation pEx latWrongShape 1 8 8 0 0).1 (by decide),
   (prepare_latents_validation pEx latWrongDevice 1 8 8 0 0).2.1 (by decide) (by decide),
   (prepare_latents_validation pEx latGood 1 8 8 0 0).2.2 (by decide) (by decide)⟩

/-- The classifier-free-guidance recombination, stated elementwise: adding
the scaled difference is the pointwise formula `u + gs * (c - u)`. -/
theorem zipWith_guidance (gs : ℚ) : ∀ (u c : List ℚ),
    List.zipWith (fun x y => x + y) u
        ((List.zipWith (fun x y => x - y) c u).map (fun x => gs * x))
      = List.zipWith (fun a b => a + gs * (b - a)) u c := by
  intro u
  induction u with
  | nil => intro c; simp
  | cons a u ih =>
      intro c
      cases c with
      | nil => simp
      | cons b c => simp [ih]

/-- Claim C7: with guidance enabled (guidance_scale > 1), writing u and c
for the unconditional (first) and conditional (second) halves of the
UNet's noise prediction over the doubled batch, the combined noise
prediction equals `u + guidance_scale * (c - u)` elementwise. -/
theorem guided_noise_pred_formula (p : Pipeline) (t : Int) (latents emb : Tensor)
    (guidance_scale : ℚ) (h : 1 < guidance_scale) :
    (step_noise_pred p t latents guidance_scale emb).data
      = List.zipWith (fun u c => u + guidance_scale * (c - u))
          ((p.unet.run (p.scheduler.scale_model_input (latents.cat latents) t) t
              emb).chunk2.1.data)
          ((p.unet.run (p.scheduler.scale_model_input (latents.cat latents) t) t
              emb).chunk2.2.data) := by
  simp only [step_noise_pred, if_pos h, Tensor.add, Tensor.sub, Tensor.scalarMul]
  exact zipWith_guidance guidance_scale _ _

/-- Witness for C7 at guidance_scale = 7.5 with u = [1] and c = [3]:
the combined prediction is [1 + 7.5 * (3 - 1)] = [16]. -/
theorem guided_noise_pred_formula_witness :
    (1 : ℚ) < 15 / 2
  ∧ (step_noise_pred pEx 0 latGood (15 / 2) embEx).data = [16] := by
  constructor
  · norm_num
  · rw [guided_noise_pred_formula pEx 0 latGood embEx (15 / 2) (by norm_num)]
    have h1 : ((pEx.unet.run (pEx.scheduler.scale_model_input (latGood.cat latGood) 0) 0
        embEx).chunk2.1.data) = [1] := rfl
    have h2 : ((pEx.unet.run (pEx.scheduler.scale_model_input (latGood.cat latGood) 0) 0
        embEx).chunk2.2.data) = [3] := rfl
    rw [h1, h2]
    norm_num [List.zipWith]

/-- Claim C8: at guidance_scale = 1 the guidance condition
`guidance_scale > 1` is false, so the noise prediction handed to the
scheduler is exactly the UNet output on the single (un-doubled) latent
batch, and the embeddings `generate` builds at that scale are the
conditional-only embeddings (no unconditional half is encoded or
concatenated). -/
theorem unguided_noise_pred_conditional_only (p : Pipeline) (t : Int) (latents emb : Tensor)
    (prompt : Prompt) (opposing_prompt : Option Prompt) (batch_size : Nat) :
    step_noise_pred p t latents 1 emb
      = p.unet.run (p.scheduler.scale_model_input latents t) t emb
  ∧ get_text_embeddings p prompt opposing_prompt (decide ((1 : ℚ) < 1)) batch_size
      = p.text_encoder (_tokenize p prompt) :=
  ⟨rfl, rfl⟩

/-- Claim C9: if either safety capability is absent, `check_for_safety`
returns the output unchanged — for the output built by the loop this
means the decoded images and an empty flag list; if both are configured,
the output carries the checker's screened images and one boolean flag per
image. -/
theorem check_for_safety_spec (p : Pipeline) (imgs : List Image) :
    ((p.feature_extractor = none ∨ p.safety_checker = none) →
        check_for_safety p ⟨imgs, []⟩ = ⟨imgs, []⟩)
  ∧ (∀ fe sc, p.feature_extractor = some fe → p.safety_checker = some sc →
        check_for_safety p ⟨imgs, []⟩
            = ⟨imgs.map (fun im => (sc im (fe imgs)).1),
               imgs.map (fun im => (sc im (fe imgs)).2)⟩
        ∧ (check_for_safety p ⟨imgs, []⟩).nsfw_content_detected.length = imgs.length) := by
  constructor
  · intro h
    rcases h with h | h
    · simp [check_for_safety, h]
    · cases hfe : p.feature_extractor <;> simp [check_for_safety, h, hfe]
  · intro fe sc hfe hsc
    constructor
    · simp [check_for_safety, hfe, hsc]
    · simp [check_for_safety, hfe, hsc]

/-- Witness for C9: with no capabilities configured the images pass
through with an empty flag list; with an always-flagging checker
configured the flag list is `[true]`, one per image. -/
theorem check_for_safety_spec_witness :
    check_for_safety pEx ⟨[[1]], []⟩ = ⟨[[1]], []⟩
  ∧ (check_for_safety pSafe ⟨[[1]], []⟩
        = ⟨[[1]].map (fun im => ((fun (im : Image) (_ : Features) =>
              (List.replicate im.length (0 : ℚ), true)) im
                ((fun (_ : List Image) => [(0 : ℚ)]) [[1]])).1),
           [[1]].map (fun im => ((fun (im : Image) (_ : Features) =>
              (List.replicate im.length (0 : ℚ), true)) im
                ((fun (_ : List Image) => [(0 : ℚ)]) [[1]])).2)⟩
    ∧ (check_for_safety pSafe ⟨[[1]], []⟩).nsfw_content_detected.length = [[1]].length) :=
  ⟨(check_for_safety_spec pEx [[1]]).1 (Or.inl rfl),
   (check_for_safety_spec pSafe [[1]]).2
      (fun _ => [(0 : ℚ)])
      (fun im _ => (List.replicate im.length (0 : ℚ), true)) rfl rfl⟩

/-- Claim C10: a caller-supplied latent object that passes validation is
mutated in place — after `prepare_latents` (inside `generate`) and the
scaling at the start of `generate_from_embeddings`, the caller's own
tensor holds its original values multiplied by `init_noise_sigma` twice,
while its shape, device and dtype are unchanged and no other heap object
is touched. -/
theorem supplied_latents_mutated_in_place (p : Pipeline) (s : Store) (ref : Nat)
    (batch_size height width : Nat)
    (hshape : (s ref).shape = [batch_size, p.unet.in_channels, height / 8, width / 8])
    (hdev : (s ref).device = p.unet.device) :
    ∃ s2, generate_heap_after_loop_start p s ref batch_size height width = Except.ok s2
      ∧ (s2 ref).data
          = (s ref).data.map
              (fun x => x * p.scheduler.init_noise_sigma * p.scheduler.init_noise_sigma)
      ∧ (s2 ref).shape = (s ref).shape
      ∧ (s2 ref).device = (s ref).device
      ∧ (s2 ref).dtype = (s ref).dtype
      ∧ ∀ k, k ≠ ref → s2 k = s k := by
  refine ⟨scaleInPlace (scaleInPlace s ref p.scheduler.init_noise_sigma) ref
      p.scheduler.init_noise_sigma, ?_, ?_, ?_, ?_, ?_, ?_⟩
  · simp [generate_heap_after_loop_start, prepare_latents_heap, hshape, hdev]
  · simp [scaleInPlace, Tensor.mulScalar, List.map_map, Function.comp]
    intro a _
    ring
  · simp [scaleInPlace, Tensor.mulScalar]
  · simp [scaleInPlace, Tensor.mulScalar]
  · simp [scaleInPlace, Tensor.mulScalar]
  · intro k hk
    simp [scaleInPlace, hk]

/-- Witness for C10 at a concrete heap and pipeline. -/
theorem supplied_latents_mutated_in_place_witness :
    ∃ s2, generate_heap_after_loop_start pEx storeEx 0 1 8 8 = Except.ok s2
      ∧ (s2 0).data
          = (storeEx 0).data.map
              (fun x => x * pEx.scheduler.init_noise_sigma * pEx.scheduler.init_noise_sigma)
      ∧ (s2 0).shape = (storeEx 0).shape
      ∧ (s2 0).device = (storeEx 0).device
      ∧ (s2 0).dtype = (storeEx 0).dtype
      ∧ ∀ k, k ≠ 0 → s2 k = storeEx k :=
  supplied_latents_mutated_in_place pEx storeEx 0 1 8 8 (by decide) (by decide)

/-- Claim C1 is violated by the code: through `generate`, a supplied
latent with value 1 and a scheduler with `init_noise_sigma = 2` reaches
the step -1 state holding 4 = 1 * 2 * 2 — the latent was multiplied by
the initial-noise-sigma twice (once in `prepare_latents`, line 374, and
again in `generate_from_embeddings`, line 235), not once as the spec
requires (which would give 2 = 1 * 2). -/
theorem generate_double_scales_initial_latents :
    (generate pEx promptEx none 8 8 1 1 0 (some latGood) none).1 = Except.ok seqEx
  ∧ (seqEx.head?.bind stateLatents).map Tensor.data = some [(4 : ℚ)]
  ∧ latGood.data = [1]
  ∧ pEx.scheduler.init_noise_sigma = 2
  ∧ (4 : ℚ) ≠ 1 * 2 := by
  refine ⟨rfl, ?_, rfl, rfl, by norm_num⟩
  have h : (seqEx.head?.bind stateLatents).map Tensor.data
      = some [1 * (2 : ℚ) * 2] := rfl
  rw [h]
  norm_num

end Diffusion
